import Mathlib

/-!
Shallow embedding of the DBFZ-Raid-Enabler core (the binary patch engine and
exe lifecycle state machine) together with proofs about it.

Files embedded:
* `src/file_manager/backup.py` — `BackupManager.detect_current_patch`,
  `create_or_update_patched_exe`, `install_patched_exe_linux`, `cleanup_all`.
* `src/core/raid_data.py` — the raid catalog tables and lookup helpers.
* `src/core/patcher.py` is absent from the sources; its `patch_executable`
  is modelled from the spec where needed.

Bytes are modelled as `Nat` (each `< 256` in real buffers; the scan logic
never depends on that bound), a file's content as `List Nat`, a possibly
missing file as `Option (List Nat)`.  Filesystem and I/O failures are made
explicit: each fallible primitive gets a boolean "this call fails" parameter,
and a caught Python exception becomes the corresponding error branch.
-/

namespace DBFZ

/-! ## Pattern scan (`detect_current_patch`, backup.py lines 104-122)

The Python loop is

    for i in range(len(exe_data) - 5):
        if exe_data[i] == 0xB8 and exe_data[i + 5] == 0x90:
            raid_index = int.from_bytes(exe_data[i+1:i+5], 'little')
            if 1 <= raid_index <= 38:
                return raid_index
    return None
-/

/-- Marker byte opening the signature (`pattern_start = 0xB8`). -/
def pattern_start : Nat := 0xB8

/-- Marker byte closing the signature (`pattern_end = 0x90`). -/
def pattern_end : Nat := 0x90

/-- The loop's match condition at offset `i`:
`exe_data[i] == 0xB8 and exe_data[i + 5] == 0x90`. -/
def sigMatch (data : List Nat) (i : Nat) : Bool :=
  data.getD i 0 == pattern_start && data.getD (i + 5) 0 == pattern_end

/-- `int.from_bytes(exe_data[i+1:i+5], byteorder='little')`: the 4-byte
unsigned little-endian operand following the opening marker. -/
def decodeLE (data : List Nat) (i : Nat) : Nat :=
  data.getD (i + 1) 0 + data.getD (i + 2) 0 * 256 +
    data.getD (i + 3) 0 * 256 ^ 2 + data.getD (i + 4) 0 * 256 ^ 3

/-- The validity check `1 <= raid_index <= 38`. -/
def validRaidIndex (v : Nat) : Bool :=
  decide (1 ≤ v ∧ v ≤ 38)

/-- The scan loop over an explicit list of offsets: returns the decoded value
at the first offset where the signature matches and the decoded value is a
valid raid index, `none` if no such offset is in the list. -/
def scanFrom (data : List Nat) : List Nat → Option Nat
  | [] => none
  | i :: rest =>
    if sigMatch data i then
      if validRaidIndex (decodeLE data i) then some (decodeLE data i)
      else scanFrom data rest
    else scanFrom data rest

/-- The body of `detect_current_patch` after a successful read: the loop runs
`i` over `range(len(exe_data) - 5)` (Nat subtraction, like Python's empty
range for negative arguments). -/
def detectScan (data : List Nat) : Option Nat :=
  scanFrom data (List.range (data.length - 5))

/-- Outcome of `patched_exe.read_bytes()`. -/
inductive ReadOutcome
  | ok (data : List Nat)
  | ioError (msg : String)

/-- `detect_current_patch`: returns `none` when the file does not exist;
otherwise reads it inside a `try`, and any exception while reading is caught
and turned into `none` (backup.py lines 99-126). -/
def detect_current_patch (fileExists : Bool) (readResult : ReadOutcome) : Option Nat :=
  if fileExists = false then none
  else
    match readResult with
    | .ok data => detectScan data
    | .ioError _ => none

/-- The offsets at which the loop's match condition fires: the scan's
iteration space `range(len - 5)` filtered by `sigMatch`. -/
def scanSites (data : List Nat) : List Nat :=
  (List.range (data.length - 5)).filter (fun i => sigMatch data i)

/-- An occurrence of the 6-byte signature in the buffer: byte `0xB8` at
offset `i` and byte `0x90` at offset `i + 5`, both in bounds. -/
def isOccurrence (data : List Nat) (i : Nat) : Prop :=
  i + 5 < data.length ∧ data.getD i 0 = pattern_start ∧ data.getD (i + 5) 0 = pattern_end

instance (data : List Nat) (i : Nat) : Decidable (isOccurrence data i) := by
  unfold isOccurrence; infer_instance

/-- The number of signature occurrences in the buffer. -/
def occurrenceCount (data : List Nat) : Nat :=
  (List.range data.length).countP (fun i => decide (isOccurrence data i))

/-! ### Scan lemmas -/

theorem sigMatch_iff_of_lt (data : List Nat) (i : Nat) (h : i < data.length - 5) :
    sigMatch data i = true ↔ isOccurrence data i := by
  unfold sigMatch isOccurrence
  rw [Bool.and_eq_true, beq_iff_eq, beq_iff_eq]
  constructor
  · rintro ⟨h1, h2⟩
    exact ⟨by omega, h1, h2⟩
  · rintro ⟨_, h1, h2⟩
    exact ⟨h1, h2⟩

theorem not_isOccurrence_of_ge (data : List Nat) (i : Nat) (h : ¬ i < data.length - 5) :
    ¬ isOccurrence data i := by
  intro ⟨hb, _, _⟩
  omega

theorem mem_scanSites (data : List Nat) (i : Nat) :
    i ∈ scanSites data ↔ isOccurrence data i := by
  unfold scanSites
  rw [List.mem_filter, List.mem_range]
  constructor
  · rintro ⟨hr, hm⟩
    exact (sigMatch_iff_of_lt data i hr).mp hm
  · intro ho
    have hr : i < data.length - 5 := by
      by_contra hc
      exact not_isOccurrence_of_ge data i hc ho
    exact ⟨hr, (sigMatch_iff_of_lt data i hr).mpr ho⟩

theorem scanSites_length (data : List Nat) :
    (scanSites data).length = occurrenceCount data := by
  unfold scanSites occurrenceCount
  rw [← List.countP_eq_length_filter]
  have hsplit : List.range data.length
      = List.range (data.length - 5) ++
        (List.range (data.length - (data.length - 5))).map (fun i => data.length - 5 + i) := by
    rw [← List.range_add]
    congr 1
    omega
  rw [hsplit, List.countP_append, List.countP_map]
  have h0 : (List.range (data.length - (data.length - 5))).countP
      ((fun i => decide (isOccurrence data i)) ∘ (fun i => data.length - 5 + i)) = 0 := by
    rw [List.countP_eq_zero]
    intro a _
    simp only [Function.comp_apply, decide_eq_true_eq]
    exact not_isOccurrence_of_ge data _ (by omega)
  rw [h0, Nat.add_zero]
  refine List.countP_congr ?_
  intro i hi
  rw [List.mem_range] at hi
  rw [decide_eq_true_eq]
  exact sigMatch_iff_of_lt data i hi

/-- Claim C1: for every byte buffer holding exactly `k` occurrences of the
6-byte signature (`0xB8` at offset `i`, `0x90` at offset `i + 5`), the
signature scan of `detect_current_patch` iterates over every starting offset
`0 .. len - 6` (not just every 6th offset) and its match condition fires at
exactly the `k` occurrence offsets — including occurrences that are not
6-byte aligned with a previous one. -/
theorem scan_finds_every_occurrence (data : List Nat) (k : Nat)
    (hk : occurrenceCount data = k) :
    scanSites data = (List.range (data.length - 5)).filter (fun i => sigMatch data i) ∧
    (scanSites data).length = k ∧
    (∀ i, i ∈ scanSites data ↔ isOccurrence data i) := by
  refine ⟨rfl, ?_, mem_scanSites data⟩
  rw [scanSites_length, hk]

/-- Witness for C1 on a concrete buffer with two signature occurrences whose
offsets (0 and 3) are not 6-byte aligned with each other. -/
theorem scan_finds_every_occurrence_witness :
    occurrenceCount [0xB8, 0, 0, 0xB8, 0, 0x90, 0, 0, 0x90] = 2 ∧
    (scanSites [0xB8, 0, 0, 0xB8, 0, 0x90, 0, 0, 0x90]).length = 2 := by
  refine ⟨by decide, ?_⟩
  exact (scan_finds_every_occurrence [0xB8, 0, 0, 0xB8, 0, 0x90, 0, 0, 0x90] 2 (by decide)).2.1

/-! ### First-match characterization of the detect loop -/

/-- The loop's full hit condition at offset `i`: markers match and the decoded
operand is a valid raid index. -/
def hitAt (data : List Nat) (i : Nat) : Bool :=
  sigMatch data i && validRaidIndex (decodeLE data i)

theorem hitAt_eq_true (data : List Nat) (i : Nat) :
    hitAt data i = true ↔
      sigMatch data i = true ∧ validRaidIndex (decodeLE data i) = true := by
  unfold hitAt
  simp

theorem scanFrom_cons (data : List Nat) (i : Nat) (rest : List Nat) :
    scanFrom data (i :: rest) =
      if hitAt data i then some (decodeLE data i) else scanFrom data rest := by
  simp only [scanFrom, hitAt]
  by_cases h1 : sigMatch data i = true <;>
    by_cases h2 : validRaidIndex (decodeLE data i) = true <;>
      simp [h1, h2]

theorem scanFrom_eq_none (data : List Nat) (l : List Nat) :
    scanFrom data l = none ↔ ∀ i ∈ l, hitAt data i = false := by
  induction l with
  | nil => simp [scanFrom]
  | cons a rest ih =>
    rw [scanFrom_cons]
    cases h : hitAt data a
    · simp [h, ih]
    · simp [h]

theorem scanFrom_eq_some (data : List Nat) (l : List Nat) (hl : l.Pairwise (· < ·)) (v : Nat) :
    scanFrom data l = some v ↔
      ∃ i ∈ l, hitAt data i = true ∧ decodeLE data i = v ∧
        ∀ j ∈ l, j < i → hitAt data j = false := by
  induction l with
  | nil => simp [scanFrom]
  | cons a rest ih =>
    have ha : ∀ j ∈ rest, a < j := (List.pairwise_cons.mp hl).1
    have hrest : rest.Pairwise (· < ·) := (List.pairwise_cons.mp hl).2
    rw [scanFrom_cons]
    cases h : hitAt data a
    · simp only [Bool.false_eq_true, if_false]
      rw [ih hrest]
      constructor
      · rintro ⟨i, hi, hhit, hdec, hmin⟩
        refine ⟨i, List.mem_cons_of_mem a hi, hhit, hdec, ?_⟩
        intro j hj hji
        rcases List.mem_cons.mp hj with rfl | hj'
        · exact h
        · exact hmin j hj' hji
      · rintro ⟨i, hi, hhit, hdec, hmin⟩
        rcases List.mem_cons.mp hi with rfl | hi'
        · rw [h] at hhit; cases hhit
        · exact ⟨i, hi', hhit, hdec, fun j hj hji => hmin j (List.mem_cons_of_mem a hj) hji⟩
    · simp only [if_true]
      constructor
      · intro hv
        have hv' : decodeLE data a = v := by
          injection hv
        refine ⟨a, List.mem_cons_self a rest, h, hv', ?_⟩
        intro j hj hji
        rcases List.mem_cons.mp hj with rfl | hj'
        · omega
        · exact absurd hji (by have := ha j hj'; omega)
      · rintro ⟨i, hi, hhit, hdec, hmin⟩
        rcases List.mem_cons.mp hi with rfl | hi'
        · rw [hdec]
        · have hfalse : hitAt data a = false :=
            hmin a (List.mem_cons_self a rest) (ha i hi')
          rw [h] at hfalse; cases hfalse

/-- `detectScan` returns `none` exactly when no signature occurrence decodes
into the valid range `1..38`. -/
theorem detectScan_eq_none_iff (data : List Nat) :
    detectScan data = none ↔
      ∀ i, isOccurrence data i → validRaidIndex (decodeLE data i) = false := by
  rw [detectScan, scanFrom_eq_none]
  constructor
  · intro hall i hocc
    have hir : i < data.length - 5 := by
      by_contra hc
      exact not_isOccurrence_of_ge data i hc hocc
    have h := hall i (List.mem_range.mpr hir)
    unfold hitAt at h
    rw [(sigMatch_iff_of_lt data i hir).mpr hocc] at h
    simpa using h
  · intro hall i hi
    rw [List.mem_range] at hi
    unfold hitAt
    by_cases hs : sigMatch data i = true
    · rw [hs, hall i ((sigMatch_iff_of_lt data i hi).mp hs)]
      rfl
    · rw [Bool.not_eq_true] at hs
      rw [hs]
      rfl

/-- `detectScan` returns `some v` exactly when `v` is the decoded value of the
lowest-offset signature occurrence whose decoded value is in range. -/
theorem detectScan_eq_some_iff (data : List Nat) (v : Nat) :
    detectScan data = some v ↔
      ∃ i, isOccurrence data i ∧ decodeLE data i = v ∧ validRaidIndex v = true ∧
        ∀ j, isOccurrence data j → j < i → validRaidIndex (decodeLE data j) = false := by
  rw [detectScan, scanFrom_eq_some data _ (List.pairwise_lt_range _) v]
  constructor
  · rintro ⟨i, hi, hhit, hdec, hmin⟩
    rw [List.mem_range] at hi
    obtain ⟨hs, hval⟩ := (hitAt_eq_true data i).mp hhit
    refine ⟨i, (sigMatch_iff_of_lt data i hi).mp hs, hdec, hdec ▸ hval, ?_⟩
    intro j hj hji
    have hjr : j < data.length - 5 := by
      by_contra hc
      exact not_isOccurrence_of_ge data j hc hj
    have h := hmin j (List.mem_range.mpr hjr) hji
    unfold hitAt at h
    rw [(sigMatch_iff_of_lt data j hjr).mpr hj] at h
    simpa using h
  · rintro ⟨i, hocc, hdec, hval, hmin⟩
    have hir : i < data.length - 5 := by
      by_contra hc
      exact not_isOccurrence_of_ge data i hc hocc
    refine ⟨i, List.mem_range.mpr hir, ?_, hdec, ?_⟩
    · rw [hitAt_eq_true]
      exact ⟨(sigMatch_iff_of_lt data i hir).mpr hocc, by rw [hdec]; exact hval⟩
    · intro j hj hji
      rw [List.mem_range] at hj
      unfold hitAt
      by_cases hs : sigMatch data j = true
      · rw [hs, hmin j ((sigMatch_iff_of_lt data j hj).mp hs) hji]
        rfl
      · rw [Bool.not_eq_true] at hs
        rw [hs]
        rfl

/-- Claim C2: `detect_current_patch` returns `none` when the installed
artifact does not exist; otherwise it returns the 4-byte unsigned
little-endian value decoded at the first (lowest-offset) signature match
whose decoded value lies in `1..38`, and `none` when no match decodes into
that range. -/
theorem detect_current_patch_spec (data : List Nat) (r : ReadOutcome) :
    detect_current_patch false r = none ∧
    (∀ v, detect_current_patch true (ReadOutcome.ok data) = some v ↔
      ∃ i, isOccurrence data i ∧ decodeLE data i = v ∧ validRaidIndex v = true ∧
        ∀ j, isOccurrence data j → j < i → validRaidIndex (decodeLE data j) = false) ∧
    (detect_current_patch true (ReadOutcome.ok data) = none ↔
      ∀ i, isOccurrence data i → validRaidIndex (decodeLE data i) = false) := by
  refine ⟨rfl, ?_, ?_⟩
  · intro v
    show detectScan data = some v ↔ _
    exact detectScan_eq_some_iff data v
  · show detectScan data = none ↔ _
    exact detectScan_eq_none_iff data

/-- Witness for C2: a missing installed artifact reports `none`. -/
theorem detect_current_patch_spec_witness :
    detect_current_patch false (ReadOutcome.ok [0xB8, 1, 0, 0, 0, 0x90]) = none :=
  (detect_current_patch_spec [] (ReadOutcome.ok [0xB8, 1, 0, 0, 0, 0x90])).1

/-- Claim C8: the detection scan only touches offsets `i + d` with `d ≤ 5`
for `i` drawn from `range (len - 5)`, all of which are in bounds; and for a
buffer shorter than 6 bytes the loop's index list is empty and the scan
returns `none`. -/
theorem detect_scan_in_bounds (data : List Nat) :
    (∀ i ∈ List.range (data.length - 5), ∀ d, d ≤ 5 → i + d < data.length) ∧
    (data.length < 6 → List.range (data.length - 5) = [] ∧ detectScan data = none) := by
  constructor
  · intro i hi d hd
    rw [List.mem_range] at hi
    omega
  · intro h
    have h0 : data.length - 5 = 0 := by omega
    unfold detectScan
    rw [h0, List.range_zero]
    exact ⟨rfl, rfl⟩

/-- Witness for C8: in a 7-byte buffer the scan's offsets stay in bounds, and
on a 3-byte buffer the loop body never runs and the scan reports `none`. -/
theorem detect_scan_in_bounds_witness :
    (1 + 5 < [9, 9, 9, 9, 9, 9, 9].length) ∧ detectScan [1, 2, 3] = none :=
  ⟨(detect_scan_in_bounds [9, 9, 9, 9, 9, 9, 9]).1 1 (by decide) 5 (by decide),
   ((detect_scan_in_bounds [1, 2, 3]).2 (by decide)).2⟩

/-- Claim C9: `detect_current_patch` never propagates an exception — a read
failure is caught and reported as `none`, identically to a missing file and
to an existing but unpatched file. -/
theorem detect_current_patch_catches (m : String) (r : ReadOutcome) :
    detect_current_patch true (ReadOutcome.ioError m) = none ∧
    detect_current_patch false r = none ∧
    (∀ data : List Nat,
      (∀ i, isOccurrence data i → validRaidIndex (decodeLE data i) = false) →
      detect_current_patch true (ReadOutcome.ok data) =
        detect_current_patch true (ReadOutcome.ioError m)) := by
  refine ⟨rfl, rfl, ?_⟩
  intro data hno
  show detectScan data = none
  exact (detectScan_eq_none_iff data).mpr hno

/-- Witness for C9 on a concrete unpatched buffer. -/
theorem detect_current_patch_catches_witness :
    detect_current_patch true (ReadOutcome.ok [1, 2, 3]) =
      detect_current_patch true (ReadOutcome.ioError "boom") :=
  (detect_current_patch_catches "boom" (ReadOutcome.ok [])).2.2 [1, 2, 3]
    (fun i h => absurd h (not_isOccurrence_of_ge [1, 2, 3] i (Nat.not_lt_zero i)))

/-! ## Exe lifecycle (`verify_clean_exe` / `create_or_update_patched_exe`,
backup.py lines 17-84)

Filesystem state for this operation: the contents of the clean exe and of the
patched exe, each possibly absent.  `unlink_fails` models `patched_exe.unlink()`
raising (caught, non-fatal); `copy_fails` models `shutil.copy2` raising
(re-raised as `BackupError`). -/

structure PrepFS where
  clean_exe : Option (List Nat)
  patched_exe : Option (List Nat)
deriving DecidableEq

/-- Outcome of `create_or_update_patched_exe`: either the function returns the
patched-exe path (modelled by the resulting filesystem state), or it raises
`BackupError`. -/
inductive PrepOutcome
  | ok (fs : PrepFS)
  | backupError (msg : String)
deriving DecidableEq

/-- `verify_clean_exe`: true iff the clean exe exists (raises otherwise —
the raise is folded into `create_or_update_patched_exe` below). -/
def verify_clean_exe (fs : PrepFS) : Bool :=
  fs.clean_exe.isSome

/-- `create_or_update_patched_exe`: verify the clean exe (raising
`BackupError` if missing), best-effort delete any previous patched exe
(a failure is logged and ignored), then copy clean over patched, raising
`BackupError` when the copy fails. -/
def create_or_update_patched_exe (fs : PrepFS) (unlink_fails copy_fails : Bool) :
    PrepOutcome :=
  match fs.clean_exe with
  | none => .backupError "Original game executable not found"
  | some cdata =>
    let fs1 := if fs.patched_exe.isSome && !unlink_fails
               then { fs with patched_exe := none } else fs
    if copy_fails then .backupError "Failed to create patched exe"
    else .ok { fs1 with patched_exe := some cdata }

/-- Claim C6: a failure to delete the pre-existing patched exe is non-fatal
and the copy still proceeds, installing a byte-for-byte copy of the clean exe
at the patched path while leaving the clean exe untouched; `BackupError` is
raised exactly when the clean exe is missing or the copy itself fails. -/
theorem materialize_spec (fs : PrepFS) (unlink_fails copy_fails : Bool) :
    ((∃ m, create_or_update_patched_exe fs unlink_fails copy_fails = .backupError m) ↔
      (fs.clean_exe = none ∨ copy_fails = true)) ∧
    (∀ c, fs.clean_exe = some c → copy_fails = false →
      create_or_update_patched_exe fs unlink_fails copy_fails = .ok ⟨some c, some c⟩) := by
  obtain ⟨co, po⟩ := fs
  constructor
  · cases co <;> cases copy_fails <;>
      simp [create_or_update_patched_exe]
  · intro c hc hcf
    cases co with
    | none => cases hc
    | some c0 =>
      have : c0 = c := by injection hc
      subst this
      subst hcf
      cases po <;> cases unlink_fails <;>
        simp [create_or_update_patched_exe]

/-- Witness for C6: with a stale patched exe whose deletion fails, the copy
still succeeds and overwrites it with the clean bytes. -/
theorem materialize_spec_witness :
    create_or_update_patched_exe ⟨some [1, 2], some [9]⟩ true false =
      PrepOutcome.ok ⟨some [1, 2], some [1, 2]⟩ :=
  (materialize_spec ⟨some [1, 2], some [9]⟩ true false).2 [1, 2] rfl rfl

/-! ## Linux install (`install_patched_exe_linux`, backup.py lines 128-163)

State: the launch-location exe (`RED-Win64-Shipping.exe`), its backup file,
and the content of the patched exe being installed.  The two `shutil.copy2`
calls can each fail (exception caught by the outer `try`, returning False). -/

structure InstallFS where
  original_exe : Option (List Nat)
  backup_exe : Option (List Nat)
  patched_data : List Nat
deriving DecidableEq

/-- `install_patched_exe_linux`: no-op returning False off Linux; otherwise
back up the original exe only if it exists and no backup does, then copy the
patched exe over the original; any copy failure is caught and yields False. -/
def install_patched_exe_linux (is_linux : Bool) (fs : InstallFS)
    (backup_copy_fails install_copy_fails : Bool) : InstallFS × Bool :=
  if !is_linux then (fs, false)
  else
    let doBackup := fs.original_exe.isSome && fs.backup_exe.isNone
    if doBackup && backup_copy_fails then (fs, false)
    else
      let fs1 := if doBackup then { fs with backup_exe := fs.original_exe } else fs
      if install_copy_fails then (fs1, false)
      else ({ fs1 with original_exe := some fs.patched_data }, true)

/-- Claim C7: the backup of the launch-location exe is created at most once —
whenever a backup already exists its content is left unchanged, and the
backup file is written only when the original exists and no backup does
(in which case it receives the original's bytes). -/
theorem backup_created_at_most_once (is_linux : Bool) (fs : InstallFS)
    (backup_copy_fails install_copy_fails : Bool) :
    (∀ b, fs.backup_exe = some b →
      (install_patched_exe_linux is_linux fs backup_copy_fails install_copy_fails).1.backup_exe
        = some b) ∧
    ((install_patched_exe_linux is_linux fs backup_copy_fails install_copy_fails).1.backup_exe
        ≠ fs.backup_exe →
      fs.backup_exe = none ∧ fs.original_exe.isSome = true ∧
      (install_patched_exe_linux is_linux fs backup_copy_fails install_copy_fails).1.backup_exe
        = fs.original_exe) := by
  obtain ⟨oe, be, pd⟩ := fs
  cases is_linux <;> cases oe <;> cases be <;>
    cases backup_copy_fails <;> cases install_copy_fails <;>
      simp [install_patched_exe_linux]

/-- Witness for C7: an existing backup survives a successful install
unchanged. -/
theorem backup_created_at_most_once_witness :
    (install_patched_exe_linux true ⟨some [1], some [7], [2]⟩ false false).1.backup_exe
      = some [7] :=
  (backup_created_at_most_once true ⟨some [1], some [7], [2]⟩ false false).1 [7] rfl

/-! ## Cleanup coordinator (`cleanup_all`, backup.py lines 165-315)

State tracked: whether the patched exe exists, whether the Linux backup of
the launch location exists, the shortcut files present in the game root
(each tagged with whether its `unlink()` would fail), and whether the
application log directory exists.  Environment failure switches model the
fallible primitives; a caught exception appends its message to the report's
error list, and the final `raise BackupError` on log-removal failure is the
`Except.error` branch. -/

structure CleanupState where
  patched_exists : Bool
  backup_exists : Bool
  shortcuts : List Bool
  log_dir_exists : Bool
deriving DecidableEq

structure CleanupEnv where
  unlink_patched_fails : Bool
  restore_fails : Bool
  glob_fails : Bool
  rmtree_fails : Bool
deriving DecidableEq

/-- The `cleanup_all` results dictionary. -/
structure CleanupReport where
  patched_exe_removed : Bool
  original_restored : Bool
  shortcuts_removed : Nat
  logs_removed : Bool
  errors : List String
deriving DecidableEq

/-- Step (a): remove the patched exe if present; a failure is recorded in the
error list, not raised. -/
def stepRemovePatched (st : CleanupState) (env : CleanupEnv) :
    CleanupState × Bool × List String :=
  if st.patched_exists then
    if env.unlink_patched_fails then (st, false, ["Failed to remove patched exe"])
    else ({ st with patched_exists := false }, true, [])
  else (st, false, [])

/-- Step (b), Linux only: copy the backup back over the original and remove
the backup marker; a failure is recorded, not raised. -/
def stepRestoreOriginal (is_linux : Bool) (st : CleanupState) (env : CleanupEnv) :
    CleanupState × Bool × List String :=
  if is_linux && st.backup_exists then
    if env.restore_fails then (st, false, ["Failed to restore original exe"])
    else ({ st with backup_exists := false }, true, [])
  else (st, false, [])

/-- The inner shortcut-removal loop: returns (number removed, shortcuts still
present afterwards, errors).  A per-file unlink failure leaves that file in
place and records an error. -/
def removeShortcuts : List Bool → Nat × List Bool × List String
  | [] => (0, [], [])
  | f :: rest =>
    let r := removeShortcuts rest
    if f then (r.1, true :: r.2.1, "Failed to remove shortcut" :: r.2.2)
    else (r.1 + 1, r.2.1, r.2.2)

/-- Step (c): glob the game root for shortcuts and unlink each; a scan
failure is recorded, not raised. -/
def stepRemoveShortcuts (st : CleanupState) (env : CleanupEnv) :
    CleanupState × Nat × List String :=
  if env.glob_fails then (st, 0, ["Error scanning for shortcuts in game folder"])
  else
    let r := removeShortcuts st.shortcuts
    ({ st with shortcuts := r.2.1 }, r.1, r.2.2)

/-- `cleanup_all`: steps (a)-(c) are best-effort; step (d) (log directory
removal) appends its error and then raises `BackupError`, which is the
`Except.error` branch — the results dictionary is not returned in that case.
The first component is the filesystem state after the call (side effects of
completed sub-steps persist even when the error is raised). -/
def cleanup_all (is_linux : Bool) (st : CleanupState) (env : CleanupEnv) :
    CleanupState × Except String CleanupReport :=
  let a := stepRemovePatched st env
  let b := stepRestoreOriginal is_linux a.1 env
  let c := stepRemoveShortcuts b.1 env
  let errs := a.2.2 ++ b.2.2 ++ c.2.2
  if c.1.log_dir_exists then
    if env.rmtree_fails then
      (c.1, .error "Failed to remove logs directory")
    else
      ({ c.1 with log_dir_exists := false },
       .ok ⟨a.2.1, b.2.1, c.2.1, true, errs⟩)
  else
    (c.1, .ok ⟨a.2.1, b.2.1, c.2.1, false, errs⟩)

theorem stepRemovePatched_log (st : CleanupState) (env : CleanupEnv) :
    (stepRemovePatched st env).1.log_dir_exists = st.log_dir_exists := by
  unfold stepRemovePatched
  split
  · split <;> rfl
  · rfl

theorem stepRestoreOriginal_log (is_linux : Bool) (st : CleanupState) (env : CleanupEnv) :
    (stepRestoreOriginal is_linux st env).1.log_dir_exists = st.log_dir_exists := by
  unfold stepRestoreOriginal
  split
  · split <;> rfl
  · rfl

theorem stepRemoveShortcuts_log (st : CleanupState) (env : CleanupEnv) :
    (stepRemoveShortcuts st env).1.log_dir_exists = st.log_dir_exists := by
  unfold stepRemoveShortcuts
  split <;> rfl

/-- Claim C3 counterexample: with the patched exe present, the log directory
present, and only the log-directory removal failing, `cleanup_all` raises
(returns the `error` branch) — even though step (a) did remove the patched
exe, no report carrying that result reaches the caller. -/
theorem cleanup_error_discards_report :
    (cleanup_all true ⟨true, false, [], true⟩ ⟨false, false, false, true⟩).2 =
      Except.error "Failed to remove logs directory" ∧
    (cleanup_all true ⟨true, false, [], true⟩ ⟨false, false, false, true⟩).1.patched_exists
      = false := by
  constructor <;> rfl

/-- Claim C3 (amended): when removal of the application log directory fails,
`cleanup_all` escalates a fatal `BackupError` that aborts the whole
coordinator; the accumulated sub-step results are not returned to the caller
(only the log-removal error message travels in the exception), although the
on-disk effects of the completed sub-steps persist. -/
theorem cleanup_log_failure_aborts (is_linux : Bool) (st : CleanupState) (env : CleanupEnv)
    (hlog : st.log_dir_exists = true) (hrm : env.rmtree_fails = true) :
    (cleanup_all is_linux st env).2 = Except.error "Failed to remove logs directory" := by
  simp [cleanup_all, stepRemoveShortcuts_log, stepRestoreOriginal_log,
    stepRemovePatched_log, hlog, hrm]

/-- Witness for the amended C3 at a concrete state. -/
theorem cleanup_log_failure_aborts_witness :
    (cleanup_all true ⟨false, true, [false], true⟩ ⟨true, false, false, true⟩).2 =
      Except.error "Failed to remove logs directory" :=
  cleanup_log_failure_aborts true ⟨false, true, [false], true⟩ ⟨true, false, false, true⟩ rfl rfl

/-- Claim C4: when a `cleanup_all` run has removed everything, a second run
(with a working directory scan) reports all-false/zero with an empty error
list and leaves the state unchanged. -/
theorem cleanup_all_idempotent (is_linux : Bool) (st : CleanupState)
    (env1 env2 : CleanupEnv)
    (h : (cleanup_all is_linux st env1).1 = ⟨false, false, [], false⟩)
    (hglob : env2.glob_fails = false) :
    cleanup_all is_linux (cleanup_all is_linux st env1).1 env2 =
      (⟨false, false, [], false⟩, Except.ok ⟨false, false, 0, false, []⟩) := by
  rw [h]
  unfold cleanup_all stepRemovePatched stepRestoreOriginal stepRemoveShortcuts
  rw [hglob]
  cases is_linux <;> rfl

/-- Witness for C4: a full successful cleanup followed by a second run. -/
theorem cleanup_all_idempotent_witness :
    cleanup_all true
        (cleanup_all true ⟨true, true, [false, false], true⟩ ⟨false, false, false, false⟩).1
        ⟨false, false, false, false⟩ =
      (⟨false, false, [], false⟩, Except.ok ⟨false, false, 0, false, []⟩) :=
  cleanup_all_idempotent true ⟨true, true, [false, false], true⟩
    ⟨false, false, false, false⟩ ⟨false, false, false, false⟩ (by decide) rfl

/-! ## Binary patch engine (`BinaryPatcher.patch_executable`)

The repository imports `core.patcher.BinaryPatcher` (tui.py line 15) but
`src/core/patcher.py` is not among the sources, so the engine is modelled
from the spec (§4.2). -/

/-- Outcome of one patch operation (`PatchResult` in the spec): success flag,
ordered list of offsets written, ordered list of error descriptions. -/
structure PatchResult where
  success : Bool
  offsets : List Nat
  errors : List String
deriving DecidableEq

/-- Modelled from the spec: `writeSite` of §4.1 — overwrite only the 4-byte
little-endian field at `site + 1 .. site + 4`, leaving the markers untouched. -/
def writeSite (buf : List Nat) (site : Nat) (v : Nat) : List Nat :=
  ((((buf.set (site + 1) (v % 256)).set (site + 2) (v / 256 % 256)).set
      (site + 3) (v / 256 ^ 2 % 256)).set (site + 4) (v / 256 ^ 3 % 256))

/-- Modelled from the spec: `BinaryPatcher.patch_executable` (the `apply`
contract of §4.2; `src/core/patcher.py` is missing from the sources).  Read
the installed artifact (`IoError` if unreadable), enumerate every signature
site, write the value at each site in an in-memory copy, then persist the
whole buffer in one write; with zero sites the result is `success = false`
with error "no patch locations found" and the artifact is left unmodified on
disk.  The first component is the on-disk content after the call. -/
def patch_executable (file : Option (List Nat)) (value : Nat) (persist_fails : Bool) :
    Option (List Nat) × PatchResult :=
  match file with
  | none => (none, ⟨false, [], ["IoError: failed to read executable"]⟩)
  | some data =>
    let sites := scanSites data
    if sites = [] then
      (some data, ⟨false, [], ["no patch locations found"]⟩)
    else
      let patched := sites.foldl (fun buf i => writeSite buf i value) data
      if persist_fails then
        (some data, ⟨false, sites, ["IoError: failed to write executable"]⟩)
      else (some patched, ⟨true, sites, []⟩)

/-- Claim C5: `patch_executable` with zero matched signature sites returns
`success = false` with the non-empty error list `["no patch locations
found"]` and leaves the installed artifact byte-identical to its pre-call
state. -/
theorem apply_zero_sites (data : List Nat) (value : Nat) (persist_fails : Bool)
    (h : scanSites data = []) :
    patch_executable (some data) value persist_fails =
      (some data, ⟨false, [], ["no patch locations found"]⟩) := by
  simp [patch_executable, h]

/-- Witness for C5 on a concrete signature-free buffer. -/
theorem apply_zero_sites_witness :
    patch_executable (some [1, 2, 3, 4, 5, 6, 7]) 5 false =
      (some [1, 2, 3, 4, 5, 6, 7], ⟨false, [], ["no patch locations found"]⟩) :=
  apply_zero_sites [1, 2, 3, 4, 5, 6, 7] 5 false (by decide)

/-! ## Raid catalog (`src/core/raid_data.py`)

The Python dicts become association lists in source order; `dict.get(k, d)`
becomes `(l.lookup k).getD d`. -/

/-- `CHARACTER_CODES` (raid_data.py lines 4-50). -/
def CHARACTER_CODES : List (String × String) := [
  ("AAA", "(Empty Slot)"),
  ("AEN", "Android 18"),
  ("ASN", "Android 16"),
  ("AVP", "Android 17"),
  ("BDN", "Bardock"),
  ("BRS", "Broly (Z)"),
  ("BSN", "Beerus"),
  ("BUK", "Kid Buu"),
  ("BUN", "Majin Buu"),
  ("CEN", "Cell"),
  ("CLF", "Cooler"),
  ("EST", "Broly (DBS)"),
  ("FRN", "Frieza"),
  ("GBR", "Goku Black (SS RosÃ©)"),
  ("GFF", "Gogeta (SS4)"),
  ("GHT", "Gohan (Teen)"),
  ("GHU", "Gohan (Adult)"),
  ("GKB", "Goku Black"),
  ("GKN", "Goku (Saiyan Saga)"),
  ("GKS", "Goku (SS)"),
  ("GNN", "Captain Ginyu"),
  ("GTL", "Gotenks"),
  ("HTN", "Hit"),
  ("JNN", "Janemba"),
  ("JRN", "Jiren"),
  ("KFS", "Kefla"),
  ("KRN", "Krillin"),
  ("MGS", "Goku (Ultra Instinct)"),
  ("MTN", "Master Roshi"),
  ("NHY", "Gogeta (SSGSS)"),
  ("NPN", "Nappa"),
  ("OSM", "Super Baby 2"),
  ("PCN", "Piccolo"),
  ("SGN", "Goku (SSGSS)"),
  ("TNN", "Tien"),
  ("TON", "Android 21"),
  ("TOP", "Android 21 (Lab Coat)"),
  ("TRS", "Trunks"),
  ("VDN", "Videl"),
  ("VGB", "Vegeta (SSGSS)"),
  ("VGN", "Vegeta (Saiyan Saga)"),
  ("VGS", "Vegeta (SS)"),
  ("VTB", "Vegito (SSGSS)"),
  ("YMN", "Yamcha"),
  ("ZMB", "Zamasu (Fused)")]

/-- `RAID_MAIN_BOSS` (raid_data.py lines 53-92). -/
def RAID_MAIN_BOSS : List (Nat × String) := [
  (1, "FRN"), (2, "CEN"), (3, "BUK"), (4, "HTN"), (5, "BSN"), (6, "TON"),
  (7, "YMN"), (8, "BRS"), (9, "BDN"), (10, "VTB"), (11, "ZMB"), (12, "GKN"),
  (13, "VGN"), (14, "AVP"), (15, "CLF"), (16, "JRN"), (17, "VDN"), (18, "SGN"),
  (19, "JNN"), (20, "NHY"), (21, "EST"), (22, "TRS"), (23, "GBR"), (24, "GTL"),
  (25, "GHU"), (26, "GHU"), (27, "GKS"), (28, "PCN"), (29, "KRN"), (30, "GKN"),
  (31, "BSN"), (32, "KFS"), (33, "MGS"), (34, "MTN"), (35, "GFF"), (36, "OSM"),
  (37, "TOP"), (38, "GFF")]

/-- `RAID_CHARACTERS` (raid_data.py lines 95-134). -/
def RAID_CHARACTERS : List (Nat × List String) := [
  (1, ["FRN", "GNN", "NPN"]),
  (2, ["CEN"]),
  (3, ["BUK"]),
  (4, ["HTN"]),
  (5, ["BSN", "GKB", "VGB"]),
  (6, ["AEN", "ASN", "BUK", "BUN", "CEN", "FRN", "GKS", "TNN", "TON", "VGS", "YMN"]),
  (7, ["KRN", "TNN", "YMN"]),
  (8, ["BRS"]),
  (9, ["BDN"]),
  (10, ["GKB", "TRS", "VGB", "VGN", "VTB"]),
  (11, ["GBR", "ZMB"]),
  (12, ["GKN", "KRN", "PCN"]),
  (13, ["NPN", "VGN"]),
  (14, ["AEN", "ASN", "AVP"]),
  (15, ["CLF", "FRN"]),
  (16, ["JRN"]),
  (17, ["GHU", "GTL", "VDN"]),
  (18, ["GKB", "GKN", "GKS", "SGN"]),
  (19, ["BUK", "CEN", "FRN", "JNN"]),
  (20, ["GKB", "GKN", "GKS", "NHY", "VGB", "VGN", "VGS", "VTB"]),
  (21, ["BRS", "EST", "FRN"]),
  (22, ["AEN", "AVP", "CEN", "FRN", "GBR", "TRS", "ZMB"]),
  (23, ["GBR", "ZMB"]),
  (24, ["GKS", "GTL", "PCN"]),
  (25, ["GHT", "GHU", "GTL", "TRS"]),
  (26, ["ASN", "GHT", "GHU", "GKS", "PCN", "VDN"]),
  (27, ["AEN", "AVP", "FRN", "GHU", "GKB", "GKS", "KRN", "PCN", "TNN", "VGB"]),
  (28, ["GHT", "GKN", "GKS", "KRN", "PCN"]),
  (29, ["GKN", "KRN", "TNN", "YMN"]),
  (30, ["GKN", "KRN", "PCN", "TNN", "YMN"]),
  (31, ["BSN", "GBR", "GKB", "VGB", "VTB", "ZMB"]),
  (32, ["HTN", "KFS"]),
  (33, ["BSN", "GKB", "GKN", "JRN", "MGS"]),
  (34, ["BUK", "CEN", "GBR", "GHT", "GHU", "GKB", "GKN", "GKS", "KRN", "MTN",
        "NHY", "SGN", "VTB", "YMN"]),
  (35, ["GFF", "GTL", "KFS", "NHY", "VTB", "ZMB"]),
  (36, ["AEN", "BDN", "BRS", "GHU", "KRN", "OSM", "TRS", "VDN"]),
  (37, ["AEN", "ASN", "AVP", "CEN", "TON", "TOP"]),
  (38, ["BRS", "BSN", "BUK", "CEN", "CLF", "EST", "FRN", "GFF", "GKS", "HTN",
        "JNN", "JRN", "MGS", "NHY", "TRS", "VGB", "VGS", "VTB", "ZMB"])]

/-- `RAID_BOSSES` (raid_data.py lines 136-175). -/
def RAID_BOSSES : List (Nat × String) := [
  (1, "The Emperor Strikes Back"),
  (2, "The Cell Games Main Event"),
  (3, "The Might of a Majin"),
  (4, "Living Legend of Universe 6"),
  (5, "Universe 7\x27s God of Destruction"),
  (6, "Ominous Android"),
  (7, "Leading the Pack"),
  (8, "Heated, Furious, Ultimate Battle"),
  (9, "Father of Goku"),
  (10, "Future Freedom Fighters"),
  (11, "Foes from a Fearsome Future"),
  (12, "Pushing Past the Limits"),
  (13, "Savage Saiyan Showdown"),
  (14, "Android Assault"),
  (15, "Cooler\x27s Revenge"),
  (16, "Beyond the Gods"),
  (17, "Videl\x27s Training"),
  (18, "Goku Gauntlet"),
  (19, "From the Depths of Hell"),
  (20, "The Ultimate Fusion"),
  (21, "Power Incarnate"),
  (22, "Defiant in the Face of Despair"),
  (23, "A God in Mortal Form"),
  (24, "Fusion is Child\x27s Play!"),
  (25, "Defenders of the Future"),
  (26, "Warm-Hearted Warrior"),
  (27, "The Best of Universe 7"),
  (28, "A Once Fearsome Foe"),
  (29, "Float Like a Crane, Sting Like a... Turtle?"),
  (30, "Earth\x27s Mightiest"),
  (31, "The Power of a God"),
  (32, "First in Female Fusion"),
  (33, "God Among Gods"),
  (34, "The Greatest Kamehameha"),
  (35, "Facing the Fusions"),
  (36, "Trouble with a Tuffle"),
  (37, "Elegant Androids"),
  (38, "Ultimate Zenkai Battle")]

/-- `get_character_name`: name for a code, falling back to the code itself. -/
def get_character_name (code : String) : String :=
  (CHARACTER_CODES.lookup code).getD code

/-- `get_raid_boss_code`: main boss code for a raid, falling back to `"???"`. -/
def get_raid_boss_code (raid_index : Nat) : String :=
  (RAID_MAIN_BOSS.lookup raid_index).getD "???"

/-- `get_raid_boss`: main boss character name for a raid. -/
def get_raid_boss (raid_index : Nat) : String :=
  get_character_name (get_raid_boss_code raid_index)

/-- `get_raid_characters`: names of all characters appearing in a raid,
falling back to the empty list for an unknown index. -/
def get_raid_characters (raid_index : Nat) : List String :=
  ((RAID_CHARACTERS.lookup raid_index).getD []).map get_character_name

/-- The index set `{1, ..., 38}` in order. -/
def raid_indexes : List Nat := List.range' 1 38

/-- Claim C10: the raid catalog is internally consistent — `RAID_BOSSES`,
`RAID_MAIN_BOSS` and `RAID_CHARACTERS` all have exactly the key list
`1..38`; every character code in `RAID_MAIN_BOSS` or in any
`RAID_CHARACTERS` list is a key of `CHARACTER_CODES`; every raid's main-boss
code is a member of that raid's character list; hence the lookups behind
`get_raid_boss` and `get_raid_characters` never fall back to a placeholder
for indexes 1..38. -/
theorem raid_catalog_consistent :
    (RAID_BOSSES.map Prod.fst = raid_indexes) ∧
    (RAID_MAIN_BOSS.map Prod.fst = raid_indexes) ∧
    (RAID_CHARACTERS.map Prod.fst = raid_indexes) ∧
    (RAID_MAIN_BOSS.all (fun p => (CHARACTER_CODES.map Prod.fst).contains p.2) = true) ∧
    (RAID_CHARACTERS.all
      (fun p => p.2.all (fun c => (CHARACTER_CODES.map Prod.fst).contains c)) = true) ∧
    (RAID_MAIN_BOSS.all
      (fun p => ((RAID_CHARACTERS.lookup p.1).getD []).contains p.2) = true) ∧
    (raid_indexes.all (fun i =>
      (RAID_MAIN_BOSS.lookup i).isSome && (RAID_CHARACTERS.lookup i).isSome &&
        (RAID_BOSSES.lookup i).isSome &&
        (CHARACTER_CODES.lookup (get_raid_boss_code i)).isSome &&
        !(get_raid_boss_code i == "???")) = true) := by
  refine ⟨?_, ?_, ?_, ?_, ?_, ?_, ?_⟩ <;> decide

end DBFZ
